import Mathlib

/-!
# gh-prs sidebar: a verification development

Shallow embedding of `data/utils.go` and `ui/components/prsidebar/prsidebar.go`.

* Go strings are Lean `String`s (valid Unicode text), processed as lists of
  characters.
* Go `int` is `Int`, every arithmetic result reduced by `wrapInt` to the
  64-bit two's-complement range.
* A nil-pointer dereference is a `Fault`; functions that can dereference a
  nil pointer return `Except Fault _`.
* Styling (lipgloss), the markdown renderer, the key table, the viewport
  widget and the blocks rendered by other files of the package are fields of
  an environment `Env`: the theorems hold for every choice of them.
* `regexp` is modelled by a backtracking matcher with Go's leftmost-first
  preference order.
-/

namespace GhPrs

/-! ## Data model -/

/-- Go `int` on a 64-bit target: results of arithmetic are reduced to the
two's-complement range `[-2^63, 2^63)`. -/
def wrapInt (x : Int) : Int :=
  (x + 9223372036854775808) % 18446744073709551616 - 9223372036854775808

/-- The run-time panics of prsidebar.go: dereferencing a nil `m.ctx`, a nil
`m.ctx.Config`, or a nil `m.pr`. -/
inductive Fault where
  | nilContext
  | nilConfig
  | nilPullRequest
  deriving Repr, DecidableEq

namespace data

/-- The fields of `data.PullRequestData` that prsidebar.go reads (the struct
is declared outside the embedded sources). -/
structure PullRequestData where
  Title : String
  Body : String
  BaseRefName : String
  HeadRefName : String
  State : String
  Mergeable : String
  deriving Repr, DecidableEq

end data

namespace pr

/-- Source: `&pr.PullRequest{Data: *prData}` in `SetPrData`. -/
structure PullRequest where
  Data : data.PullRequestData
  deriving Repr, DecidableEq

end pr

namespace config

structure PreviewConfig where
  Width : Int
  deriving Repr, DecidableEq

structure Defaults where
  Preview : PreviewConfig
  deriving Repr, DecidableEq

/-- The path `Config.Defaults.Preview.Width` read by prsidebar.go. -/
structure Config where
  Defaults : Defaults
  deriving Repr, DecidableEq

end config

namespace context

/-- The fields of `context.ProgramContext` read by prsidebar.go; `Config` is a
pointer that may be nil. -/
structure ProgramContext where
  MainContentHeight : Int
  Config : Option config.Config
  deriving Repr, DecidableEq

end context

namespace viewport

/-- State of the bubbles viewport widget: the public `Width`, `Height`,
`YOffset` and the content lines. -/
structure Model where
  Width : Int
  Height : Int
  YOffset : Int
  lines : List String
  deriving Repr, DecidableEq

end viewport

namespace tea

/-- A bubbletea message: a key press (named by its key string) or anything else. -/
inductive Msg where
  | KeyMsg (key : String)
  | other
  deriving Repr, DecidableEq

end tea

namespace lipgloss

/-- A lipgloss colour: `lipgloss.Color(s)` or an adaptive light/dark pair. -/
inductive TerminalColor where
  | Color (s : String)
  | AdaptiveColor (Light Dark : String)
  deriving Repr, DecidableEq

end lipgloss

namespace prsidebar

/-- Source: `type Model struct` in prsidebar.go. -/
structure Model where
  pr : Option pr.PullRequest
  IsOpen : Bool
  sidebarViewport : viewport.Model
  ctx : Option context.ProgramContext
  deriving Repr, DecidableEq

end prsidebar

/-- Everything prsidebar.go takes from outside the embedded sources: the
layout constants and styles of the package, the theme, lipgloss rendering,
the markdown renderer, the key table, the viewport widget's methods and the
blocks rendered by other files. -/
structure Env where
  contentPadding : Int
  borderWidth : Int
  pagerHeight : Int
  openPRDark : String
  closedPRDark : String
  mergedPRDark : String
  SecondaryText : lipgloss.TerminalColor
  WarningText : lipgloss.TerminalColor
  SuccessText : lipgloss.TerminalColor
  FaintText : lipgloss.TerminalColor
  SubleMainText : lipgloss.TerminalColor
  WaitingGlyph : String
  /-- Go `styles.MainTextStyle.Copy().Width(w).Render(s)`. -/
  mainTextRender : Int → String → String
  /-- Go `lipgloss.NewStyle().Foreground(c).Render(s)`. -/
  foregroundRender : lipgloss.TerminalColor → String → String
  /-- Go `pillStyle.Copy().Background(bg).Render(s)`, with an optional `Foreground(fg)`. -/
  pillRender : lipgloss.TerminalColor → Option lipgloss.TerminalColor → String → String
  /-- Go `lipgloss.NewStyle().Italic(true).Render(s)`. -/
  italicRender : String → String
  /-- Go `lipgloss.NewStyle().MaxHeight(10).Width(w).MaxWidth(w).Align(lipgloss.Left).Render(s)`. -/
  descriptionRender : Int → String → String
  /-- Go `sideBarStyle.Copy().Height(h).MaxHeight(h).Width(w).MaxWidth(w)`, centred
  or not, then `Render(s)`. -/
  sideBarRender : Int → Int → Bool → String → String
  /-- Go `pagerStyle.Copy().Render(s)`. -/
  pagerRender : String → String
  /-- Go `lipgloss.JoinHorizontal(lipgloss.Top, ...)`. -/
  JoinHorizontal : List String → String
  /-- Go `lipgloss.JoinVertical(lipgloss.Top, ...)`. -/
  JoinVertical : List String → String
  /-- Go `lipgloss.PlaceVertical(h, lipgloss.Center, s)`. -/
  PlaceVertical : Int → String → String
  /-- Go `markdown.GetMarkdownRenderer(w).Render(body)`; `none` is a non-nil `err`. -/
  markdownRender : Int → String → Option String
  /-- Go `(*pr.PullRequest).RenderState`. -/
  RenderState : pr.PullRequest → String
  /-- Go `(*pr.PullRequest).GetStatusChecksRollup`. -/
  GetStatusChecksRollup : pr.PullRequest → String
  /-- Go `(*Model).renderChecks`, defined in another file of the package. -/
  renderChecks : prsidebar.Model → String
  /-- Go `(*Model).renderActivity`, defined in another file of the package. -/
  renderActivity : prsidebar.Model → String
  /-- Go `key.Matches(msg, constants.Keys.PageDown)`. -/
  matchesPageDown : String → Bool
  /-- Go `key.Matches(msg, constants.Keys.PageUp)`. -/
  matchesPageUp : String → Bool
  /-- Go `(*viewport.Model).SetContent`. -/
  SetContent : viewport.Model → String → viewport.Model
  /-- Go `(*viewport.Model).HalfViewDown`. -/
  HalfViewDown : viewport.Model → viewport.Model
  /-- Go `(*viewport.Model).HalfViewUp`. -/
  HalfViewUp : viewport.Model → viewport.Model
  /-- Go `viewport.Model.View`. -/
  viewportView : viewport.Model → String
  /-- Go `int(m.sidebarViewport.ScrollPercent()*100)`. -/
  scrollPercent100 : viewport.Model → Int

/-! ## data/utils.go -/

namespace data

/-- Source: `IsStatusWaiting` in data/utils.go. -/
def IsStatusWaiting (status : String) : Bool :=
  status == "PENDING" ||
    status == "QUEUED" ||
    status == "IN_PROGRESS" ||
    status == "WAITING"

/-- Source: `IsConclusionAFailure` in data/utils.go. -/
def IsConclusionAFailure (conclusion : String) : Bool :=
  conclusion == "FAILURE" || conclusion == "TIMED_OUT" || conclusion == "STARTUP_FAILURE"

end data

/-! ## Go library functions used by prsidebar.go -/

namespace strings

/-- Go `unicode.IsSpace`. -/
def isSpace (c : Char) : Bool :=
  c == '\t' || c == '\n' || c == '\x0b' || c == '\x0c' || c == '\r' || c == ' ' ||
    c.val == 0x85 || c.val == 0xA0 || c.val == 0x1680 ||
    (0x2000 ≤ c.val && c.val ≤ 0x200A) ||
    c.val == 0x2028 || c.val == 0x2029 || c.val == 0x202F || c.val == 0x205F ||
    c.val == 0x3000

/-- Go `strings.TrimSpace`: leading and trailing white space removed. -/
def TrimSpace (s : String) : String :=
  String.mk (((s.data.dropWhile isSpace).reverse.dropWhile isSpace).reverse)

end strings

namespace regexp

/-- Abstract syntax of the regular expressions used here. `starLazy` is `x*`
under the `U` flag (prefer fewer repetitions); `anyCharNotNL` is `.` without
the `s` flag; `space` is `[[:space:]]`. -/
inductive Regex where
  | lit (c : Char)
  | anyCharNotNL
  | space
  | cat (a b : Regex)
  | alt (a b : Regex)
  | starLazy (a : Regex)
  deriving Repr, DecidableEq

/-- The class `[[:space:]]`, that is `[\t\n\v\f\r ]`. -/
def isSpaceClass (c : Char) : Bool :=
  c == '\t' || c == '\n' || c == '\x0b' || c == '\x0c' || c == '\r' || c == ' '

/-- Backtracking order of a lazy star: stop here first, then one more
repetition of `step` (repetitions that consume nothing are not retried). The
fuel is the input length, an upper bound on the number of repetitions. -/
def starLazyRun (step : List Char → List (List Char)) : Nat → List Char → List (List Char)
  | 0, s => [s]
  | fuel + 1, s =>
    s :: ((step s).filter (fun t => decide (t.length < s.length))).flatMap (starLazyRun step fuel)

/-- All ways `re` matches a prefix of the input, as the remaining inputs, in
the preference order of a backtracking (leftmost-first) matcher. -/
def Regex.run : Regex → List Char → List (List Char)
  | .lit c, s =>
    match s with
    | x :: xs => if x = c then [xs] else []
    | [] => []
  | .anyCharNotNL, s =>
    match s with
    | x :: xs => if x = '\n' then [] else [xs]
    | [] => []
  | .space, s =>
    match s with
    | x :: xs => if isSpaceClass x then [xs] else []
    | [] => []
  | .cat a b, s => (a.run s).flatMap b.run
  | .alt a b, s => a.run s ++ b.run s
  | .starLazy a, s => starLazyRun a.run s.length s

/-- The leftmost match, and at that position the preferred one: the text
before the match and the text after it. -/
def findMatch (re : Regex) : List Char → Option (List Char × List Char)
  | [] => ((re.run []).head?).map fun r => ([], r)
  | c :: cs =>
    match (re.run (c :: cs)).head? with
    | some r => some ([], r)
    | none => (findMatch re cs).map fun p => (c :: p.1, p.2)

/-- Loop of `re.ReplaceAllString(src, "")`: copy the text before each match,
skip the match, continue after it; after an empty match advance by one
character. -/
def removeAllAux (re : Regex) : Nat → List Char → List Char
  | 0, s => s
  | fuel + 1, s =>
    match findMatch re s with
    | none => s
    | some (kept, rest) =>
      if kept.length + rest.length < s.length then
        kept ++ removeAllAux re fuel rest
      else
        match rest with
        | [] => kept
        | c :: cs => kept ++ c :: removeAllAux re fuel cs

/-- Go `re.ReplaceAllString(src, "")` on the characters of `src`: every
non-overlapping match deleted. The fuel `length + 1` is never exhausted. -/
def removeAll (re : Regex) (s : List Char) : List Char :=
  removeAllAux re (s.length + 1) s

/-- Source: `regexp.MustCompile("(?U)<!--(.|[[:space:]])*-->")` in
`renderDescription`. -/
def commentPattern : Regex :=
  .cat (.lit '<') (.cat (.lit '!') (.cat (.lit '-') (.cat (.lit '-')
    (.cat (.starLazy (.alt .anyCharNotNL .space))
      (.cat (.lit '-') (.cat (.lit '-') (.lit '>')))))))

end regexp

/-! ## The explicit scanning rule for comment stripping

Written from the rule's words, to be compared with `stripComments`. -/

namespace scan

end scan

/-! ## ui/components/prsidebar/prsidebar.go -/

namespace prsidebar

/-- Source: `NewModel` in prsidebar.go (unset viewport fields are Go zero values). -/
def NewModel : Model :=
  { pr := none
    IsOpen := false
    sidebarViewport := { Width := 0, Height := 0, YOffset := 0, lines := [] }
    ctx := none }

/-- Source: `Model.Update` in prsidebar.go; the returned command is always nil. -/
def Update (E : Env) (m : Model) (msg : tea.Msg) : Model :=
  match msg with
  | .KeyMsg key =>
    if E.matchesPageDown key then
      { m with sidebarViewport := E.HalfViewDown m.sidebarViewport }
    else if E.matchesPageUp key then
      { m with sidebarViewport := E.HalfViewUp m.sidebarViewport }
    else m
  | .other => m

/-- Source: `Model.GetSidebarContentWidth` in prsidebar.go. -/
def GetSidebarContentWidth (E : Env) (m : Model) : Except Fault Int :=
  match m.ctx with
  | none => .error .nilContext
  | some ctx =>
    match ctx.Config with
    | none => .ok 0
    | some cfg =>
      .ok (wrapInt (wrapInt (cfg.Defaults.Preview.Width - wrapInt (2 * E.contentPadding))
        - E.borderWidth))

/-- Source: `Model.View` in prsidebar.go. -/
def View (E : Env) (m : Model) : Except Fault String :=
  if !m.IsOpen then .ok ""
  else
    match m.ctx with
    | none => .error .nilContext
    | some ctx =>
      let height := ctx.MainContentHeight
      match ctx.Config with
      | none => .error .nilConfig
      | some cfg =>
        let width := cfg.Defaults.Preview.Width
        match m.pr with
        | none =>
          .ok (E.sideBarRender height width true
            (E.PlaceVertical height "Select a Pull Request..."))
        | some _ =>
          .ok (E.sideBarRender height width false
            (E.JoinVertical
              [E.viewportView m.sidebarViewport,
               E.pagerRender (toString (E.scrollPercent100 m.sidebarViewport) ++ "%")]))

/-- The dereference `m.pr` inside the render methods. -/
def getPr (m : Model) : Except Fault pr.PullRequest :=
  match m.pr with
  | none => .error .nilPullRequest
  | some p => .ok p

/-- Source: `Model.renderTitle` in prsidebar.go. -/
def renderTitle (E : Env) (m : Model) : Except Fault String := do
  let w ← GetSidebarContentWidth E m
  let p ← getPr m
  pure (E.mainTextRender (wrapInt (w - 6)) p.Data.Title)

/-- Source: `Model.renderBranches` in prsidebar.go. -/
def renderBranches (E : Env) (m : Model) : Except Fault String := do
  let p ← getPr m
  pure (E.foregroundRender E.SecondaryText
    (p.Data.BaseRefName ++ " \uE344 " ++ p.Data.HeadRefName))

/-- Source: `Model.renderStatusPill` in prsidebar.go. -/
def renderStatusPill (E : Env) (m : Model) : Except Fault String := do
  let p ← getPr m
  let bgColor :=
    if p.Data.State = "OPEN" then E.openPRDark
    else if p.Data.State = "CLOSED" then E.closedPRDark
    else if p.Data.State = "MERGED" then E.mergedPRDark
    else ""
  pure (E.pillRender (.Color bgColor) none (E.RenderState p))

/-- Source: `Model.renderMergeablePill` in prsidebar.go. -/
def renderMergeablePill (E : Env) (m : Model) : Except Fault String := do
  let p ← getPr m
  let status := p.Data.Mergeable
  if status = "CONFLICTING" then
    pure (E.pillRender E.WarningText none "\uF655 Merge Conflicts")
  else if status = "MERGEABLE" then
    pure (E.pillRender E.SuccessText none "\uF5F7 Mergeable")
  else
    pure ""

/-- Source: `Model.renderChecksPill` in prsidebar.go. -/
def renderChecksPill (E : Env) (m : Model) : Except Fault String := do
  let p ← getPr m
  let status := E.GetStatusChecksRollup p
  if status = "FAILURE" then
    pure (E.pillRender E.WarningText none "\uF655 Checks")
  else if status = "PENDING" then
    pure (E.pillRender E.FaintText none (E.WaitingGlyph ++ " Checks"))
  else
    pure (E.pillRender E.SuccessText (some E.SubleMainText) "\uF62B Checks")

/-- Source: `Model.renderPills` in prsidebar.go. -/
def renderPills (E : Env) (m : Model) : Except Fault String := do
  let statusPill ← renderStatusPill E m
  let mergeablePill ← renderMergeablePill E m
  let checksPill ← renderChecksPill E m
  pure (E.JoinHorizontal [statusPill, " ", mergeablePill, " ", checksPill])

/-- The comment-stripping step of `renderDescription`:
`regex.ReplaceAllString(m.pr.Data.Body, "")`. -/
def stripComments (body : String) : String :=
  String.mk (regexp.removeAll regexp.commentPattern body.data)

/-- Source: `Model.renderDescription` in prsidebar.go. -/
def renderDescription (E : Env) (m : Model) : Except Fault String := do
  let w ← GetSidebarContentWidth E m
  let width := wrapInt (w - 6)
  let p ← getPr m
  let body := stripComments p.Data.Body
  let body := strings.TrimSpace body
  if body = "" then
    pure (E.italicRender "No description provided.")
  else
    match E.markdownRender width body with
    | none => pure ""
    | some rendered => pure (E.descriptionRender width rendered)

/-- The `strings.Builder` part of `setSidebarViewportContent`: the text handed
to `SetContent`. -/
def composeContent (E : Env) (m : Model) : Except Fault String := do
  let s := ""
  let s := s ++ (← renderTitle E m)
  let s := s ++ "\n"
  let s := s ++ (← renderBranches E m)
  let s := s ++ "\n\n"
  let s := s ++ (← renderPills E m)
  let s := s ++ "\n\n"
  let s := s ++ (← renderDescription E m)
  let s := s ++ "\n\n"
  let s := s ++ E.renderChecks m
  let s := s ++ "\n\n"
  let s := s ++ E.renderActivity m
  pure s

/-- Source: `Model.setSidebarViewportContent` in prsidebar.go. -/
def setSidebarViewportContent (E : Env) (m : Model) : Except Fault Model :=
  match m.pr with
  | none => .ok m
  | some _ => do
    let s ← composeContent E m
    pure { m with sidebarViewport := E.SetContent m.sidebarViewport s }

/-- Source: `Model.SetPrData` in prsidebar.go. -/
def SetPrData (E : Env) (m : Model) (prData : Option data.PullRequestData) :
    Except Fault Model :=
  let m :=
    match prData with
    | none => { m with pr := none }
    | some d => { m with pr := some { Data := d } }
  setSidebarViewportContent E m

/-- Source: `Model.UpdateProgramContext` in prsidebar.go. -/
def UpdateProgramContext (E : Env) (m : Model) (ctx : Option context.ProgramContext) :
    Except Fault Model :=
  match ctx with
  | none => .ok m
  | some c => do
    let m := { m with ctx := some c }
    let height ←
      match m.ctx with
      | none => Except.error Fault.nilContext
      | some c => pure c.MainContentHeight
    let m := { m with
      sidebarViewport := { m.sidebarViewport with Height := wrapInt (height - E.pagerHeight) } }
    let w ← GetSidebarContentWidth E m
    pure { m with sidebarViewport := { m.sidebarViewport with Width := w } }

/-- The calls the outer dashboard makes on the sidebar; `SetIsOpen` is its
write to the exported field `IsOpen`. -/
inductive Op where
  | SetPrData (prData : Option data.PullRequestData)
  | Update (msg : tea.Msg)
  | UpdateProgramContext (ctx : Option context.ProgramContext)
  | SetIsOpen (b : Bool)
  deriving Repr, DecidableEq

/-- One call on the model. -/
def step (E : Env) (m : Model) : Op → Except Fault Model
  | .SetPrData d => SetPrData E m d
  | .Update msg => .ok (Update E m msg)
  | .UpdateProgramContext ctx => UpdateProgramContext E m ctx
  | .SetIsOpen b => .ok { m with IsOpen := b }

/-- A sequence of calls; a panic ends the run. -/
def run (E : Env) : Model → List Op → Except Fault Model
  | m, [] => .ok m
  | m, op :: ops =>
    match step E m op with
    | .error f => .error f
    | .ok m1 => run E m1 ops

/-- The scroll-offset bound of the data model:
`0 ≤ offset ≤ max(0, content-height − viewport-height)`. -/
def ScrollInBounds (v : viewport.Model) : Prop :=
  0 ≤ v.YOffset ∧ v.YOffset ≤ max 0 ((v.lines.length : Int) - v.Height)

end prsidebar


/-! ## Auxiliary definitions for the proofs -/

namespace regexp

end regexp

/-! ## A plain-text environment, for evaluating the model on concrete inputs -/

namespace viewport

/-- Split a text at every line feed. -/
def splitLinesAux : List Char → List Char → List String
  | acc, [] => [String.mk acc.reverse]
  | acc, c :: cs =>
    if c = '\n' then String.mk acc.reverse :: splitLinesAux [] cs
    else splitLinesAux (c :: acc) cs

/-- Modelled from the spec: the viewport widget's `SetContent` is not part of
the sources; "replaces content, resets scroll offset to 0". -/
def SetContent (v : Model) (text : String) : Model :=
  { v with lines := splitLinesAux [] text.data, YOffset := 0 }

/-- Modelled from the spec: the largest valid scroll offset of the viewport
widget, `max(0, content-height − viewport-height)`. -/
def maxYOffset (v : Model) : Int :=
  max 0 ((v.lines.length : Int) - v.Height)

/-- Modelled from the spec: the viewport widget's `HalfViewDown` is not part of
the sources; "move offset by height / 2 lines, clamped to valid range". -/
def HalfViewDown (v : Model) : Model :=
  { v with YOffset := max 0 (min (v.YOffset + Int.tdiv v.Height 2) (maxYOffset v)) }

/-- Modelled from the spec: the viewport widget's `HalfViewUp` is not part of
the sources; "move offset by height / 2 lines, clamped to valid range". -/
def HalfViewUp (v : Model) : Model :=
  { v with YOffset := max 0 (min (v.YOffset - Int.tdiv v.Height 2) (maxYOffset v)) }

/-- Modelled from the spec: the viewport widget's `View` is not part of the
sources; "the viewport's visible window". -/
def View (v : Model) : String :=
  String.intercalate "\n" ((v.lines.drop v.YOffset.toNat).take v.Height.toNat)

/-- Modelled from the spec: the viewport widget's `ScrollPercent` is not part of
the sources; "offset / max(1, content-height − height), clamped to [0, 1]",
times 100 and truncated. -/
def scrollPercent100 (v : Model) : Int :=
  max 0 (min 100 (Int.tdiv (100 * v.YOffset) (max 1 ((v.lines.length : Int) - v.Height))))

end viewport

/-- An environment without styling: renderers return their text (pills in
brackets), markdown rendering succeeds with the text itself, the viewport
follows the spec's ViewportController, the layout constants are 2, 1 and 2. -/
def plainEnv : Env where
  contentPadding := 2
  borderWidth := 1
  pagerHeight := 2
  openPRDark := "green"
  closedPRDark := "red"
  mergedPRDark := "purple"
  SecondaryText := .AdaptiveColor "grey" "grey"
  WarningText := .AdaptiveColor "yellow" "yellow"
  SuccessText := .AdaptiveColor "green" "green"
  FaintText := .AdaptiveColor "dim" "dim"
  SubleMainText := .AdaptiveColor "white" "white"
  WaitingGlyph := "~"
  mainTextRender := fun _ s => s
  foregroundRender := fun _ s => s
  pillRender := fun _ _ s => "[" ++ s ++ "]"
  italicRender := fun s => s
  descriptionRender := fun _ s => s
  sideBarRender := fun _ _ _ s => s
  pagerRender := fun s => s
  JoinHorizontal := fun l => String.join l
  JoinVertical := fun l => String.intercalate "\n" l
  PlaceVertical := fun _ s => s
  markdownRender := fun _ s => some s
  RenderState := fun p => p.Data.State
  GetStatusChecksRollup := fun _ => "SUCCESS"
  renderChecks := fun _ => "checks"
  renderActivity := fun _ => "activity"
  matchesPageDown := fun k => k == "ctrl+d"
  matchesPageUp := fun k => k == "ctrl+u"
  SetContent := viewport.SetContent
  HalfViewDown := viewport.HalfViewDown
  HalfViewUp := viewport.HalfViewUp
  viewportView := viewport.View
  scrollPercent100 := viewport.scrollPercent100

/-- A layout context with a configuration: height 22, preview width 45. -/
def sampleCtx : context.ProgramContext :=
  { MainContentHeight := 22, Config := some { Defaults := { Preview := { Width := 45 } } } }

/-- A layout context whose `Config` pointer is nil. -/
def noConfigCtx : context.ProgramContext :=
  { MainContentHeight := 22, Config := none }

/-- A pull request whose body holds an HTML comment. -/
def samplePr : data.PullRequestData :=
  { Title := "Fix bug"
    Body := "A <!-- hidden -->B"
    BaseRefName := "main"
    HeadRefName := "fix"
    State := "OPEN"
    Mergeable := "MERGEABLE" }

/-- The model after `UpdateProgramContext(sampleCtx)` and `SetPrData(samplePr)`
in the plain environment. -/
def selectedModel : prsidebar.Model :=
  { pr := some { Data := samplePr }
    IsOpen := false
    sidebarViewport :=
      { Width := 40
        Height := 20
        YOffset := 0
        lines := ["Fix bug", "main \uE344 fix", "", "[OPEN] [\uF5F7 Mergeable] [\uF62B Checks]", "",
          "A B", "", "checks", "", "activity"] }
    ctx := some sampleCtx }

/-- A layout context that leaves two lines for the viewport. -/
def smallCtx : context.ProgramContext :=
  { MainContentHeight := 4, Config := some { Defaults := { Preview := { Width := 45 } } } }

/-- The model after selecting `samplePr` in a two-line viewport and paging
down to the last valid offset, 8 of 10 lines. -/
def scrolledModel : prsidebar.Model :=
  { pr := some { Data := samplePr }
    IsOpen := false
    sidebarViewport :=
      { Width := 40
        Height := 2
        YOffset := 8
        lines := ["Fix bug", "main \uE344 fix", "", "[OPEN] [\uF5F7 Mergeable] [\uF62B Checks]", "",
          "A B", "", "checks", "", "activity"] }
    ctx := some smallCtx }

/-- A layout context whose preview width is the least 64-bit integer. -/
def minWidthCtx : context.ProgramContext :=
  { MainContentHeight := 22
    Config := some { Defaults := { Preview := { Width := -9223372036854775808 } } } }

/-! ## Lemmas: the regular expression against the scanning rule -/

open regexp scan prsidebar

theorem wrapInt_of_fits {x : Int} (h1 : -9223372036854775808 ≤ x)
    (h2 : x < 9223372036854775808) : wrapInt x = x := by
  unfold wrapInt
  omega

theorem wrapInt_width (w p b : Int) :
    wrapInt (wrapInt (w - wrapInt (2 * p)) - b) = wrapInt (w - 2 * p - b) := by
  unfold wrapInt
  omega

theorem GetSidebarContentWidth_ok (E : Env) (m : Model) (c : context.ProgramContext)
    (h : m.ctx = some c) :
    GetSidebarContentWidth E m = .ok
      (match c.Config with
        | none => 0
        | some cfg =>
          wrapInt (cfg.Defaults.Preview.Width - 2 * E.contentPadding - E.borderWidth)) := by
  unfold GetSidebarContentWidth
  rw [h]
  cases hc : c.Config with
  | none => simp [hc]
  | some cfg => simp [hc, wrapInt_width]

theorem UpdateProgramContext_some (E : Env) (m : Model) (c : context.ProgramContext) :
    UpdateProgramContext E m (some c) = .ok
      { m with
        ctx := some c
        sidebarViewport :=
          { m.sidebarViewport with
            Height := wrapInt (c.MainContentHeight - E.pagerHeight)
            Width :=
              match c.Config with
              | none => 0
              | some cfg =>
                wrapInt (cfg.Defaults.Preview.Width - 2 * E.contentPadding - E.borderWidth) } } := by
  unfold UpdateProgramContext
  simp only [bind, Except.bind, pure, Except.pure]
  rw [GetSidebarContentWidth_ok E _ c rfl]

theorem SetPrData_none_eq (E : Env) (m : Model) :
    SetPrData E m none = .ok { m with pr := none } := by
  simp [SetPrData, setSidebarViewportContent]

theorem composeContent_ok (E : Env) (m : Model) (c : context.ProgramContext)
    (p : pr.PullRequest) (hctx : m.ctx = some c) (hpr : m.pr = some p) :
    ∃ t b pl d : String,
      renderTitle E m = .ok t ∧ renderBranches E m = .ok b ∧
      renderPills E m = .ok pl ∧ renderDescription E m = .ok d ∧
      composeContent E m = .ok
        ("" ++ t ++ "\n" ++ b ++ "\n\n" ++ pl ++ "\n\n" ++ d ++ "\n\n" ++
          E.renderChecks m ++ "\n\n" ++ E.renderActivity m) := by
  have hw := GetSidebarContentWidth_ok E m c hctx
  have hp : getPr m = .ok p := by simp [getPr, hpr]
  have ht : ∃ t, renderTitle E m = .ok t := by
    simp [renderTitle, hw, hp, bind, Except.bind, pure, Except.pure]
  have hb : ∃ b, renderBranches E m = .ok b := by
    simp [renderBranches, hp, bind, Except.bind, pure, Except.pure]
  have hs : ∃ s, renderStatusPill E m = .ok s := by
    simp [renderStatusPill, hp, bind, Except.bind, pure, Except.pure]
  have hm : ∃ s, renderMergeablePill E m = .ok s := by
    simp only [renderMergeablePill, hp, bind, Except.bind, pure, Except.pure]
    split_ifs <;> simp
  have hk : ∃ s, renderChecksPill E m = .ok s := by
    simp only [renderChecksPill, hp, bind, Except.bind, pure, Except.pure]
    split_ifs <;> simp
  have hpl : ∃ pl, renderPills E m = .ok pl := by
    obtain ⟨s1, h1⟩ := hs
    obtain ⟨s2, h2⟩ := hm
    obtain ⟨s3, h3⟩ := hk
    simp [renderPills, h1, h2, h3, bind, Except.bind, pure, Except.pure]
  have hd : ∃ d, renderDescription E m = .ok d := by
    simp only [renderDescription, hw, hp, bind, Except.bind, pure, Except.pure]
    split_ifs
    · simp
    · split <;> simp
  obtain ⟨t, ht⟩ := ht
  obtain ⟨b, hb⟩ := hb
  obtain ⟨pl, hpl⟩ := hpl
  obtain ⟨d, hd⟩ := hd
  refine ⟨t, b, pl, d, ht, hb, hpl, hd, ?_⟩
  simp [composeContent, ht, hb, hpl, hd, bind, Except.bind, pure, Except.pure]

theorem setSidebarViewportContent_ok (E : Env) (m : Model) (c : context.ProgramContext)
    (p : pr.PullRequest) (hctx : m.ctx = some c) (hpr : m.pr = some p) :
    ∃ s : String, composeContent E m = .ok s ∧
      setSidebarViewportContent E m =
        .ok { m with sidebarViewport := E.SetContent m.sidebarViewport s } := by
  obtain ⟨t, b, pl, d, _, _, _, _, hc⟩ := composeContent_ok E m c p hctx hpr
  refine ⟨_, hc, ?_⟩
  simp [setSidebarViewportContent, hpr, hc, bind, Except.bind, pure, Except.pure]


/-! ## Claims -/

/-- C5: `IsStatusWaiting s` is true exactly when `s` is one of "PENDING",
"QUEUED", "IN_PROGRESS", "WAITING" (case-sensitive, exact), so it is false for
"pending", " PENDING" and ""; the function is total. -/
theorem C5_IsStatusWaiting_iff (s : String) :
    (data.IsStatusWaiting s = true ↔
      (s = "PENDING" ∨ s = "QUEUED" ∨ s = "IN_PROGRESS" ∨ s = "WAITING")) ∧
    data.IsStatusWaiting "pending" = false ∧
    data.IsStatusWaiting " PENDING" = false ∧
    data.IsStatusWaiting "" = false := by
  refine ⟨?_, by decide, by decide, by decide⟩
  simp [data.IsStatusWaiting, or_assoc]

/-- C6: `IsConclusionAFailure c` is true exactly when `c` is one of "FAILURE",
"TIMED_OUT", "STARTUP_FAILURE"; it is false for the empty conclusion and for
"SUCCESS". -/
theorem C6_IsConclusionAFailure_iff (c : String) :
    (data.IsConclusionAFailure c = true ↔
      (c = "FAILURE" ∨ c = "TIMED_OUT" ∨ c = "STARTUP_FAILURE")) ∧
    data.IsConclusionAFailure "" = false ∧
    data.IsConclusionAFailure "SUCCESS" = false := by
  refine ⟨?_, by decide, by decide⟩
  simp [data.IsConclusionAFailure, or_assoc]

/-- C1, as stated, fails: after an item was selected and its composed text
placed in the viewport, `SetPrData(nil)` clears the selection but the
viewport still holds the ten composed lines; this is so in every environment. -/
theorem C1_counterexample :
    run plainEnv NewModel
        [.UpdateProgramContext (some sampleCtx), .SetPrData (some samplePr)] =
      .ok selectedModel ∧
    SetPrData plainEnv selectedModel none = .ok { selectedModel with pr := none } ∧
    ({ selectedModel with pr := none } : Model).sidebarViewport.lines =
      ["Fix bug", "main \uE344 fix", "", "[OPEN] [\uF5F7 Mergeable] [\uF62B Checks]", "",
        "A B", "", "checks", "", "activity"] ∧
    ({ selectedModel with pr := none } : Model).sidebarViewport.lines ≠ [] ∧
    ¬ ∃ E : Env, ∀ m : Model, ∃ m1, SetPrData E m none = .ok m1 ∧
      m1.pr = none ∧ m1.sidebarViewport.lines = [] := by
  refine ⟨rfl, rfl, rfl, ?_, ?_⟩
  · simp [selectedModel]
  · rintro ⟨E, h⟩
    obtain ⟨m1, h1, _, h3⟩ := h selectedModel
    rw [SetPrData_none_eq] at h1
    cases h1
    simp [selectedModel] at h3

/-- C1, amended: for every model state, `SetPrData(nil)` succeeds, makes the
selection absent and changes nothing else (the viewport, with its content
buffer and scroll offset, is as before). In the resulting state `View` does
not read the viewport: on a closed model it returns the empty text, on an
open model with a context that has a `Config` it renders the placeholder
"Select a Pull Request..." in the sidebar style, on an open model without a
context or without a `Config` it panics. -/
theorem C1_SetPrData_nil_keeps_viewport (E : Env) (m : Model) :
    SetPrData E m none = .ok { m with pr := none } ∧
    (∀ v : viewport.Model,
      View E { m with pr := none, sidebarViewport := v } = View E { m with pr := none }) ∧
    (m.IsOpen = false → View E { m with pr := none } = .ok "") ∧
    (∀ (c : context.ProgramContext) (cfg : config.Config),
      m.IsOpen = true → m.ctx = some c → c.Config = some cfg →
      View E { m with pr := none } =
        .ok (E.sideBarRender c.MainContentHeight cfg.Defaults.Preview.Width true
          (E.PlaceVertical c.MainContentHeight "Select a Pull Request..."))) ∧
    (m.IsOpen = true → m.ctx = none →
      View E { m with pr := none } = .error .nilContext) ∧
    (∀ c : context.ProgramContext, m.IsOpen = true → m.ctx = some c → c.Config = none →
      View E { m with pr := none } = .error .nilConfig) := by
  refine ⟨by simp [SetPrData, setSidebarViewportContent], ?_, ?_, ?_, ?_, ?_⟩
  · intro v
    simp only [View]
  · intro ho
    simp [View, ho]
  · intro c cfg ho hc hcfg
    simp [View, ho, hc, hcfg]
  · intro ho hc
    simp [View, ho, hc]
  · intro c ho hc hcfg
    simp [View, ho, hc, hcfg]

/-- Witness for C1: the opened `selectedModel` (its viewport holds ten composed
lines) after `SetPrData(nil)` is rendered as the placeholder alone. -/
theorem C1_SetPrData_nil_keeps_viewport_witness :
    SetPrData plainEnv { selectedModel with IsOpen := true } none =
      .ok { selectedModel with IsOpen := true, pr := none } ∧
    View plainEnv { selectedModel with IsOpen := true, pr := none } =
      .ok "Select a Pull Request..." ∧
    View plainEnv { selectedModel with pr := none } = .ok "" :=
  ⟨(C1_SetPrData_nil_keeps_viewport plainEnv { selectedModel with IsOpen := true }).1,
   (C1_SetPrData_nil_keeps_viewport plainEnv
      { selectedModel with IsOpen := true }).2.2.2.1 sampleCtx
      { Defaults := { Preview := { Width := 45 } } } rfl rfl rfl,
   (C1_SetPrData_nil_keeps_viewport plainEnv selectedModel).2.2.1 rfl⟩

/-- C2, as stated, fails: `scrolledModel` (ten lines, height 2, offset 8) is
reached from `NewModel` and its offset is within bounds; after
`UpdateProgramContext(sampleCtx)` the height is 20, the offset is still 8 and
the bound `max(0, 10 − 20) = 0` is exceeded. No choice of the layout
constants makes the claim true. -/
theorem C2_counterexample :
    run plainEnv NewModel
        [.UpdateProgramContext (some smallCtx), .SetPrData (some samplePr),
         .Update (.KeyMsg "ctrl+d"), .Update (.KeyMsg "ctrl+d"),
         .Update (.KeyMsg "ctrl+d"), .Update (.KeyMsg "ctrl+d"),
         .Update (.KeyMsg "ctrl+d"), .Update (.KeyMsg "ctrl+d"),
         .Update (.KeyMsg "ctrl+d"), .Update (.KeyMsg "ctrl+d")] = .ok scrolledModel ∧
    ScrollInBounds scrolledModel.sidebarViewport ∧
    UpdateProgramContext plainEnv scrolledModel (some sampleCtx) =
      .ok { scrolledModel with
        ctx := some sampleCtx
        sidebarViewport := { scrolledModel.sidebarViewport with Height := 20, Width := 40 } } ∧
    ¬ ScrollInBounds
      { scrolledModel.sidebarViewport with Height := 20, Width := 40 } ∧
    ¬ ∃ E : Env, ∀ (m : Model) (c : context.ProgramContext),
      ScrollInBounds m.sidebarViewport →
        ∃ m1, UpdateProgramContext E m (some c) = .ok m1 ∧
          ScrollInBounds m1.sidebarViewport := by
  refine ⟨rfl, ?_, rfl, ?_, ?_⟩
  · unfold ScrollInBounds
    decide
  · unfold ScrollInBounds
    decide
  · rintro ⟨E, h⟩
    have hb : ScrollInBounds scrolledModel.sidebarViewport := by
      unfold ScrollInBounds
      decide
    obtain ⟨m1, h1, h2⟩ :=
      h scrolledModel { MainContentHeight := E.pagerHeight + 8, Config := none } hb
    rw [UpdateProgramContext_some] at h1
    cases h1
    have hw : wrapInt (E.pagerHeight + 8 - E.pagerHeight) = 8 := by
      unfold wrapInt
      omega
    simp only [ScrollInBounds, hw] at h2
    have := h2.2
    simp [scrolledModel] at this

/-- C2, amended: `UpdateProgramContext(ctx)` with a present context succeeds and
performs no clamping: the scroll offset and the content are unchanged. From a
state whose offset lies in `[0, max(0, content-height − height)]` the offset
is therefore still non-negative, and it lies in
`[0, max(0, content-height − new height)]` whenever the new height is not
larger than the old one; in general it lies there exactly when the old offset
is at most `max(0, content-height − new height)`. -/
theorem C2_UpdateProgramContext_offset (E : Env) (m : Model) (c : context.ProgramContext)
    (hb : ScrollInBounds m.sidebarViewport) :
    ∃ m1, UpdateProgramContext E m (some c) = .ok m1 ∧
      m1.sidebarViewport.YOffset = m.sidebarViewport.YOffset ∧
      m1.sidebarViewport.lines = m.sidebarViewport.lines ∧
      0 ≤ m1.sidebarViewport.YOffset ∧
      (m1.sidebarViewport.Height ≤ m.sidebarViewport.Height →
        ScrollInBounds m1.sidebarViewport) ∧
      (ScrollInBounds m1.sidebarViewport ↔
        m.sidebarViewport.YOffset ≤
          max 0 ((m.sidebarViewport.lines.length : Int) - m1.sidebarViewport.Height)) := by
  refine ⟨_, UpdateProgramContext_some E m c, rfl, rfl, hb.1, ?_, ?_⟩
  · intro hh
    unfold ScrollInBounds at hb ⊢
    refine ⟨hb.1, ?_⟩
    simp only at hh ⊢
    have := hb.2
    omega
  · unfold ScrollInBounds
    exact ⟨fun h => h.2, fun h => ⟨hb.1, h⟩⟩

/-- Witness for C2: shrinking the viewport of `selectedModel` from 20 to 2
lines keeps its offset 0 within bounds. -/
theorem C2_UpdateProgramContext_offset_witness :
    ScrollInBounds selectedModel.sidebarViewport ∧
    ∃ m1, UpdateProgramContext plainEnv selectedModel (some smallCtx) = .ok m1 ∧
      m1.sidebarViewport.YOffset = selectedModel.sidebarViewport.YOffset ∧
      m1.sidebarViewport.lines = selectedModel.sidebarViewport.lines ∧
      0 ≤ m1.sidebarViewport.YOffset ∧
      (m1.sidebarViewport.Height ≤ selectedModel.sidebarViewport.Height →
        ScrollInBounds m1.sidebarViewport) ∧
      (ScrollInBounds m1.sidebarViewport ↔
        selectedModel.sidebarViewport.YOffset ≤
          max 0 ((selectedModel.sidebarViewport.lines.length : Int) -
            m1.sidebarViewport.Height)) :=
  ⟨by unfold ScrollInBounds; decide,
   C2_UpdateProgramContext_offset plainEnv selectedModel smallCtx
    (by unfold ScrollInBounds; decide)⟩

/-- C3, as stated, fails: for `selectedModel` the six blocks are "Fix bug",
the branch line, the pill row, "A B", "checks" and "activity"; the composed
buffer has a single line feed between the title and the branch line, so it
differs from the six blocks joined by one blank line each. -/
theorem C3_counterexample :
    renderTitle plainEnv selectedModel = .ok "Fix bug" ∧
    renderBranches plainEnv selectedModel = .ok "main \uE344 fix" ∧
    renderPills plainEnv selectedModel = .ok "[OPEN] [\uF5F7 Mergeable] [\uF62B Checks]" ∧
    renderDescription plainEnv selectedModel = .ok "A B" ∧
    plainEnv.renderChecks selectedModel = "checks" ∧
    plainEnv.renderActivity selectedModel = "activity" ∧
    composeContent plainEnv selectedModel = .ok
      "Fix bug\nmain \uE344 fix\n\n[OPEN] [\uF5F7 Mergeable] [\uF62B Checks]\n\nA B\n\nchecks\n\nactivity" ∧
    "Fix bug\nmain \uE344 fix\n\n[OPEN] [\uF5F7 Mergeable] [\uF62B Checks]\n\nA B\n\nchecks\n\nactivity" ≠
      String.intercalate "\n\n"
        ["Fix bug", "main \uE344 fix", "[OPEN] [\uF5F7 Mergeable] [\uF62B Checks]", "A B",
          "checks", "activity"] := by
  refine ⟨rfl, rfl, rfl, rfl, rfl, rfl, rfl, ?_⟩
  decide

/-- C3, amended: for every selected item (with a layout context present, so
that composing does not panic) the buffer passed to the viewport is the six
blocks title, branch line, pill row, description, checks, activity in that
order, with a single line feed between the title block and the branch line
and exactly one blank line ("\n\n") between every other adjacent pair. -/
theorem C3_composed_buffer (E : Env) (m : Model) (c : context.ProgramContext)
    (p : pr.PullRequest) (hctx : m.ctx = some c) (hpr : m.pr = some p) :
    ∃ t b pl d : String,
      renderTitle E m = .ok t ∧ renderBranches E m = .ok b ∧
      renderPills E m = .ok pl ∧ renderDescription E m = .ok d ∧
      composeContent E m = .ok
        (t ++ "\n" ++
          String.intercalate "\n\n" [b, pl, d, E.renderChecks m, E.renderActivity m]) ∧
      setSidebarViewportContent E m = .ok
        { m with
          sidebarViewport := E.SetContent m.sidebarViewport
            (t ++ "\n" ++
              String.intercalate "\n\n"
                [b, pl, d, E.renderChecks m, E.renderActivity m]) } := by
  obtain ⟨t, b, pl, d, ht, hb, hpl, hd, hc⟩ := composeContent_ok E m c p hctx hpr
  have he : "" ++ t ++ "\n" ++ b ++ "\n\n" ++ pl ++ "\n\n" ++ d ++ "\n\n" ++
        E.renderChecks m ++ "\n\n" ++ E.renderActivity m =
      t ++ "\n" ++
        String.intercalate "\n\n" [b, pl, d, E.renderChecks m, E.renderActivity m] := by
    simp [String.intercalate, String.intercalate.go, String.append_assoc]
  rw [he] at hc
  refine ⟨t, b, pl, d, ht, hb, hpl, hd, hc, ?_⟩
  simp [setSidebarViewportContent, hpr, hc, bind, Except.bind, pure, Except.pure]

/-- Witness for C3: the buffer composed for `selectedModel`. -/
theorem C3_composed_buffer_witness :
    selectedModel.ctx = some sampleCtx ∧ selectedModel.pr = some { Data := samplePr } ∧
    ∃ t b pl d : String,
      renderTitle plainEnv selectedModel = .ok t ∧
      renderBranches plainEnv selectedModel = .ok b ∧
      renderPills plainEnv selectedModel = .ok pl ∧
      renderDescription plainEnv selectedModel = .ok d ∧
      composeContent plainEnv selectedModel = .ok
        (t ++ "\n" ++
          String.intercalate "\n\n"
            [b, pl, d, plainEnv.renderChecks selectedModel,
              plainEnv.renderActivity selectedModel]) ∧
      setSidebarViewportContent plainEnv selectedModel = .ok
        { selectedModel with
          sidebarViewport := plainEnv.SetContent selectedModel.sidebarViewport
            (t ++ "\n" ++
              String.intercalate "\n\n"
                [b, pl, d, plainEnv.renderChecks selectedModel,
                  plainEnv.renderActivity selectedModel]) } :=
  ⟨rfl, rfl, C3_composed_buffer plainEnv selectedModel sampleCtx { Data := samplePr } rfl rfl⟩

/-- C7, as stated, fails. With a present context whose `Config` is nil there is
no preview width and the viewport width becomes 0 (in every environment);
and for the preview width -2^63 the subtraction wraps around to
2^63 - 5 instead of the exact -2^63 - 5. -/
theorem C7_counterexample :
    noConfigCtx.Config = none ∧
    UpdateProgramContext plainEnv NewModel (some noConfigCtx) = .ok
      { NewModel with
        ctx := some noConfigCtx
        sidebarViewport := { Width := 0, Height := 20, YOffset := 0, lines := [] } } ∧
    (∀ (E : Env) (m : Model), ∃ m1,
      UpdateProgramContext E m (some noConfigCtx) = .ok m1 ∧ m1.sidebarViewport.Width = 0) ∧
    UpdateProgramContext plainEnv NewModel (some minWidthCtx) = .ok
      { NewModel with
        ctx := some minWidthCtx
        sidebarViewport :=
          { Width := 9223372036854775803, Height := 20, YOffset := 0, lines := [] } } ∧
    (9223372036854775803 : Int) ≠
      -9223372036854775808 - 2 * plainEnv.contentPadding - plainEnv.borderWidth ∧
    ¬ ∃ E : Env, ∀ (m : Model) (c : context.ProgramContext), ∃ cfg m1,
      c.Config = some cfg ∧ UpdateProgramContext E m (some c) = .ok m1 ∧
      m1.sidebarViewport.Width =
        cfg.Defaults.Preview.Width - 2 * E.contentPadding - E.borderWidth ∧
      m1.sidebarViewport.Height = c.MainContentHeight - E.pagerHeight := by
  refine ⟨rfl, rfl, ?_, rfl, by decide, ?_⟩
  · intro E m
    exact ⟨_, UpdateProgramContext_some E m noConfigCtx, rfl⟩
  · rintro ⟨E, h⟩
    obtain ⟨cfg, _, hcfg, _⟩ := h NewModel noConfigCtx
    simp [noConfigCtx] at hcfg

/-- C7, amended: for every present context `UpdateProgramContext` succeeds; the
viewport height is `MainContentHeight − pagerHeight`; the width is
`previewWidth − 2×contentPadding − borderWidth` when the context has a
`Config` and 0 when `Config` is nil. The arithmetic is Go `int` arithmetic:
each value is the exact one whenever that fits in 64 bits, and wraps around
otherwise. -/
theorem C7_UpdateProgramContext_layout (E : Env) (m : Model) (c : context.ProgramContext) :
    ∃ m1, UpdateProgramContext E m (some c) = .ok m1 ∧
      m1.sidebarViewport.Height = wrapInt (c.MainContentHeight - E.pagerHeight) ∧
      (-9223372036854775808 ≤ c.MainContentHeight - E.pagerHeight →
        c.MainContentHeight - E.pagerHeight < 9223372036854775808 →
        m1.sidebarViewport.Height = c.MainContentHeight - E.pagerHeight) ∧
      (c.Config = none → m1.sidebarViewport.Width = 0) ∧
      (∀ cfg, c.Config = some cfg →
        m1.sidebarViewport.Width =
          wrapInt (cfg.Defaults.Preview.Width - 2 * E.contentPadding - E.borderWidth) ∧
        (-9223372036854775808 ≤
            cfg.Defaults.Preview.Width - 2 * E.contentPadding - E.borderWidth →
          cfg.Defaults.Preview.Width - 2 * E.contentPadding - E.borderWidth <
            9223372036854775808 →
          m1.sidebarViewport.Width =
            cfg.Defaults.Preview.Width - 2 * E.contentPadding - E.borderWidth)) := by
  refine ⟨_, UpdateProgramContext_some E m c, rfl, ?_, ?_, ?_⟩
  · intro h1 h2
    exact wrapInt_of_fits h1 h2
  · intro h
    simp [h]
  · intro cfg h
    refine ⟨by simp [h], ?_⟩
    intro h1 h2
    simp [h, wrapInt_of_fits h1 h2]

/-- Witness for C7: in the plain environment (constants 2, 1, 2) the context
with height 22 and preview width 45 gives height 20 and width 40. -/
theorem C7_UpdateProgramContext_layout_witness :
    ∃ m1, UpdateProgramContext plainEnv NewModel (some sampleCtx) = .ok m1 ∧
      m1.sidebarViewport.Height = 20 ∧ m1.sidebarViewport.Width = 40 := by
  obtain ⟨m1, h, _, hH, _, hW⟩ := C7_UpdateProgramContext_layout plainEnv NewModel sampleCtx
  refine ⟨m1, h, ?_, ?_⟩
  · exact hH (by decide) (by decide)
  · exact (hW _ rfl).2 (by decide) (by decide)

/-- C8: `UpdateProgramContext` never regenerates content: for every model and
every context, present or absent, it succeeds and leaves the selected item,
`IsOpen`, the viewport's content buffer and the scroll offset unchanged; with
an absent context the whole model is unchanged. -/
theorem C8_UpdateProgramContext_frame (E : Env) (m : Model)
    (ctx : Option context.ProgramContext) :
    (∃ m1, UpdateProgramContext E m ctx = .ok m1 ∧
      m1.pr = m.pr ∧ m1.IsOpen = m.IsOpen ∧
      m1.sidebarViewport.lines = m.sidebarViewport.lines ∧
      m1.sidebarViewport.YOffset = m.sidebarViewport.YOffset) ∧
    UpdateProgramContext E m none = .ok m := by
  refine ⟨?_, rfl⟩
  cases ctx with
  | none => exact ⟨m, rfl, rfl, rfl, rfl, rfl⟩
  | some c => exact ⟨_, UpdateProgramContext_some E m c, rfl, rfl, rfl, rfl⟩

/-- C9: for every selected item the mergeability pill depends on the
`Mergeable` string alone: "CONFLICTING" gives the warning-coloured
"Merge Conflicts" pill, "MERGEABLE" the success-coloured "Mergeable" pill,
and every other value the empty string. The pill row is the horizontal join
of the status pill, " ", that mergeability pill, " " and the checks pill: it
contains the "Merge Conflicts" pill for "CONFLICTING", the "Mergeable" pill
for "MERGEABLE", and the empty string in that position otherwise. -/
theorem C9_mergeable_pill (E : Env) (m : Model) (p : pr.PullRequest)
    (hpr : m.pr = some p) :
    (p.Data.Mergeable = "CONFLICTING" →
      renderMergeablePill E m =
        .ok (E.pillRender E.WarningText none "\uF655 Merge Conflicts")) ∧
    (p.Data.Mergeable = "MERGEABLE" →
      renderMergeablePill E m =
        .ok (E.pillRender E.SuccessText none "\uF5F7 Mergeable")) ∧
    (p.Data.Mergeable ≠ "CONFLICTING" → p.Data.Mergeable ≠ "MERGEABLE" →
      renderMergeablePill E m = .ok "" ∧
      ∃ st ck, renderStatusPill E m = .ok st ∧ renderChecksPill E m = .ok ck ∧
        renderPills E m = .ok (E.JoinHorizontal [st, " ", "", " ", ck])) ∧
    (∀ (m2 : Model) (p2 : pr.PullRequest), m2.pr = some p2 →
      p2.Data.Mergeable = p.Data.Mergeable →
      renderMergeablePill E m2 = renderMergeablePill E m) ∧
    (∃ st mg ck, renderStatusPill E m = .ok st ∧ renderMergeablePill E m = .ok mg ∧
      renderChecksPill E m = .ok ck ∧
      renderPills E m = .ok (E.JoinHorizontal [st, " ", mg, " ", ck])) ∧
    (p.Data.Mergeable = "CONFLICTING" →
      ∃ st ck, renderStatusPill E m = .ok st ∧ renderChecksPill E m = .ok ck ∧
        renderPills E m = .ok (E.JoinHorizontal
          [st, " ", E.pillRender E.WarningText none "\uF655 Merge Conflicts", " ", ck])) ∧
    (p.Data.Mergeable = "MERGEABLE" →
      ∃ st ck, renderStatusPill E m = .ok st ∧ renderChecksPill E m = .ok ck ∧
        renderPills E m = .ok (E.JoinHorizontal
          [st, " ", E.pillRender E.SuccessText none "\uF5F7 Mergeable", " ", ck])) := by
  have hp : getPr m = .ok p := by simp [getPr, hpr]
  have hs : ∃ s, renderStatusPill E m = .ok s := by
    simp [renderStatusPill, hp, bind, Except.bind, pure, Except.pure]
  have hk : ∃ s, renderChecksPill E m = .ok s := by
    simp only [renderChecksPill, hp, bind, Except.bind, pure, Except.pure]
    split_ifs <;> simp
  obtain ⟨st, hs⟩ := hs
  obtain ⟨ck, hk⟩ := hk
  have hrow : ∀ mg, renderMergeablePill E m = .ok mg →
      renderPills E m = .ok (E.JoinHorizontal [st, " ", mg, " ", ck]) := by
    intro mg hm
    simp [renderPills, hs, hm, hk, bind, Except.bind, pure, Except.pure]
  have hc : p.Data.Mergeable = "CONFLICTING" →
      renderMergeablePill E m =
        .ok (E.pillRender E.WarningText none "\uF655 Merge Conflicts") := by
    intro h
    simp [renderMergeablePill, hp, h, bind, Except.bind, pure, Except.pure]
  have hg : p.Data.Mergeable = "MERGEABLE" →
      renderMergeablePill E m =
        .ok (E.pillRender E.SuccessText none "\uF5F7 Mergeable") := by
    intro h
    simp [renderMergeablePill, hp, h, bind, Except.bind, pure, Except.pure]
  have ho : p.Data.Mergeable ≠ "CONFLICTING" → p.Data.Mergeable ≠ "MERGEABLE" →
      renderMergeablePill E m = .ok "" := by
    intro h1 h2
    simp [renderMergeablePill, hp, h1, h2, bind, Except.bind, pure, Except.pure]
  refine ⟨hc, hg, ?_, ?_, ?_, ?_, ?_⟩
  · intro h1 h2
    exact ⟨ho h1 h2, st, ck, hs, hk, hrow _ (ho h1 h2)⟩
  · intro m2 p2 h2 he
    have hp2 : getPr m2 = .ok p2 := by simp [getPr, h2]
    simp only [renderMergeablePill, hp, hp2, he, bind, Except.bind, pure, Except.pure]
  · by_cases h1 : p.Data.Mergeable = "CONFLICTING"
    · exact ⟨st, _, ck, hs, hc h1, hk, hrow _ (hc h1)⟩
    · by_cases h2 : p.Data.Mergeable = "MERGEABLE"
      · exact ⟨st, _, ck, hs, hg h2, hk, hrow _ (hg h2)⟩
      · exact ⟨st, _, ck, hs, ho h1 h2, hk, hrow _ (ho h1 h2)⟩
  · intro h
    exact ⟨st, ck, hs, hk, hrow _ (hc h)⟩
  · intro h
    exact ⟨st, ck, hs, hk, hrow _ (hg h)⟩

/-- Witness for C9: the pill rows of a conflicting, a mergeable and an
"UNKNOWN" item; items whose `Mergeable` is empty or spelt in lower case get no
mergeability pill either. -/
theorem C9_mergeable_pill_witness :
    renderPills plainEnv
        { selectedModel with
          pr := some { Data := { samplePr with Mergeable := "CONFLICTING" } } } =
      .ok "[OPEN] [\uF655 Merge Conflicts] [\uF62B Checks]" ∧
    renderPills plainEnv selectedModel =
      .ok "[OPEN] [\uF5F7 Mergeable] [\uF62B Checks]" ∧
    renderMergeablePill plainEnv
        { selectedModel with
          pr := some { Data := { samplePr with Mergeable := "UNKNOWN" } } } = .ok "" ∧
    renderPills plainEnv
        { selectedModel with
          pr := some { Data := { samplePr with Mergeable := "UNKNOWN" } } } =
      .ok "[OPEN]  [\uF62B Checks]" ∧
    renderMergeablePill plainEnv
        { selectedModel with
          pr := some { Data := { samplePr with Mergeable := "" } } } = .ok "" ∧
    renderMergeablePill plainEnv
        { selectedModel with
          pr := some { Data := { samplePr with Mergeable := "mergeable" } } } = .ok "" := by
  have hc := (C9_mergeable_pill plainEnv
    { selectedModel with pr := some { Data := { samplePr with Mergeable := "CONFLICTING" } } }
    { Data := { samplePr with Mergeable := "CONFLICTING" } } rfl).2.2.2.2.2.1 rfl
  have hg := (C9_mergeable_pill plainEnv selectedModel { Data := samplePr } rfl).2.2.2.2.2.2 rfl
  have hu := (C9_mergeable_pill plainEnv
    { selectedModel with pr := some { Data := { samplePr with Mergeable := "UNKNOWN" } } }
    { Data := { samplePr with Mergeable := "UNKNOWN" } } rfl).2.2.1 (by decide) (by decide)
  obtain ⟨st, ck, h1, h2, h3⟩ := hc
  obtain ⟨st2, ck2, h4, h5, h6⟩ := hg
  refine ⟨?_, ?_, hu.1, rfl, rfl, rfl⟩
  · rw [h3]
    have e1 : st = "[OPEN]" := by
      have : renderStatusPill plainEnv
          { selectedModel with
            pr := some { Data := { samplePr with Mergeable := "CONFLICTING" } } } =
          .ok "[OPEN]" := rfl
      rw [h1] at this
      exact Except.ok.inj this
    have e2 : ck = "[\uF62B Checks]" := by
      have : renderChecksPill plainEnv
          { selectedModel with
            pr := some { Data := { samplePr with Mergeable := "CONFLICTING" } } } =
          .ok "[\uF62B Checks]" := rfl
      rw [h2] at this
      exact Except.ok.inj this
    rw [e1, e2]
    rfl
  · rw [h6]
    have e1 : st2 = "[OPEN]" := by
      have : renderStatusPill plainEnv selectedModel = .ok "[OPEN]" := rfl
      rw [h4] at this
      exact Except.ok.inj this
    have e2 : ck2 = "[\uF62B Checks]" := by
      have : renderChecksPill plainEnv selectedModel = .ok "[\uF62B Checks]" := rfl
      rw [h5] at this
      exact Except.ok.inj this
    rw [e1, e2]
    rfl

theorem run_append_ok (E : Env) (a b : List Op) (m m0 : Model)
    (h : run E m a = .ok m0) : run E m (a ++ b) = run E m0 b := by
  induction a generalizing m with
  | nil =>
    simp only [run, Except.ok.injEq] at h
    subst h
    rfl
  | cons op ops ih =>
    simp only [run, List.cons_append] at h ⊢
    cases hs : step E m op with
    | error f => simp [hs] at h
    | ok m1 =>
      simp only [hs] at h ⊢
      exact ih m1 h

theorem SetPrData_some_ok (E : Env) (m : Model) (c : context.ProgramContext)
    (d : data.PullRequestData) (hctx : m.ctx = some c) :
    ∃ m1, SetPrData E m (some d) = .ok m1 ∧ m1.ctx = m.ctx := by
  obtain ⟨s, _, hs⟩ :=
    setSidebarViewportContent_ok E { m with pr := some { Data := d } } c { Data := d } hctx rfl
  exact ⟨_, hs, rfl⟩

theorem step_ok_of_ctx (E : Env) (m : Model) (op : Op) (c : context.ProgramContext)
    (hctx : m.ctx = some c) :
    ∃ m1 c1, step E m op = .ok m1 ∧ m1.ctx = some c1 := by
  cases op with
  | SetPrData d =>
    cases d with
    | none => exact ⟨_, c, SetPrData_none_eq E m, hctx⟩
    | some d =>
      obtain ⟨m1, h1, h2⟩ := SetPrData_some_ok E m c d hctx
      exact ⟨m1, c, h1, h2.trans hctx⟩
  | Update msg =>
    refine ⟨_, c, rfl, ?_⟩
    cases msg with
    | KeyMsg key =>
      simp only [Update]
      split_ifs <;> exact hctx
    | other => exact hctx
  | UpdateProgramContext ctx =>
    cases ctx with
    | none => exact ⟨m, c, rfl, hctx⟩
    | some c1 => exact ⟨_, c1, UpdateProgramContext_some E m c1, rfl⟩
  | SetIsOpen b => exact ⟨_, c, rfl, hctx⟩

theorem run_ok_of_ctx (E : Env) (ops : List Op) (m : Model) (c : context.ProgramContext)
    (hctx : m.ctx = some c) :
    ∃ m1 c1, run E m ops = .ok m1 ∧ m1.ctx = some c1 := by
  induction ops generalizing m c with
  | nil => exact ⟨m, c, rfl, hctx⟩
  | cons op ops ih =>
    obtain ⟨m1, c1, h1, h2⟩ := step_ok_of_ctx E m op c hctx
    obtain ⟨m2, c2, h3, h4⟩ := ih m1 c1 h2
    exact ⟨m2, c2, by simp only [run, h1, h3], h4⟩

theorem View_ne_nilContext (E : Env) (m : Model) (c : context.ProgramContext)
    (hctx : m.ctx = some c) : View E m ≠ .error .nilContext := by
  unfold View
  rw [hctx]
  split_ifs
  · simp
  · cases hcfg : c.Config <;> cases hp : m.pr <;> simp [hcfg]

/-- C10: once `UpdateProgramContext` was called with a present context, the
stored context stays present. After any calls `pre` that ran without a
panic, the call with a present context and any further calls `post` run
without a panic and reach a state with a stored context; there
`GetSidebarContentWidth` and `SetPrData(item)` succeed and `View`, on an open
model too, does not fail for an absent context. No single call turns a
present context into an absent one. -/
theorem C10_context_stays_present (E : Env) (pre post : List Op)
    (c : context.ProgramContext) (m0 : Model) (hpre : run E NewModel pre = .ok m0) :
    (∃ m, run E NewModel (pre ++ Op.UpdateProgramContext (some c) :: post) = .ok m ∧
      (∃ c1, m.ctx = some c1) ∧
      (∃ w, GetSidebarContentWidth E m = .ok w) ∧
      (∀ item, ∃ m1, SetPrData E m (some item) = .ok m1 ∧ m1.ctx = m.ctx) ∧
      View E m ≠ .error .nilContext ∧
      View E { m with IsOpen := true } ≠ .error .nilContext) ∧
    (∀ (a b : Model) (op : Op), (∃ c1, a.ctx = some c1) → step E a op = .ok b →
      ∃ c2, b.ctx = some c2) := by
  constructor
  · rw [run_append_ok E pre _ NewModel m0 hpre]
    obtain ⟨m1, hm1, hc⟩ : ∃ m1, UpdateProgramContext E m0 (some c) = .ok m1 ∧
        m1.ctx = some c := ⟨_, UpdateProgramContext_some E m0 c, rfl⟩
    obtain ⟨m, c1, hm, hc1⟩ := run_ok_of_ctx E post m1 c hc
    have h0 : run E m0 (Op.UpdateProgramContext (some c) :: post) = run E m1 post := by
      simp only [run, step, hm1]
    rw [h0]
    refine ⟨m, hm, ⟨c1, hc1⟩, ⟨_, GetSidebarContentWidth_ok E m c1 hc1⟩, ?_, ?_, ?_⟩
    · intro item
      exact SetPrData_some_ok E m c1 item hc1
    · exact View_ne_nilContext E m c1 hc1
    · exact View_ne_nilContext E _ c1 hc1
  · rintro a b op ⟨c1, h1⟩ hs
    obtain ⟨m1, c2, h2, h3⟩ := step_ok_of_ctx E a op c1 h1
    rw [h2] at hs
    cases hs
    exact ⟨c2, h3⟩

/-- Witness for C10: two calls before the first present context, then
`SetPrData(item)`, `UpdateProgramContext(nil)`, `SetPrData(nil)` and opening
the sidebar. -/
theorem C10_context_stays_present_witness :
    run plainEnv NewModel [.SetPrData none, .Update (.KeyMsg "ctrl+d")] = .ok NewModel ∧
    ∃ m, run plainEnv NewModel
        ([.SetPrData none, .Update (.KeyMsg "ctrl+d")] ++
          Op.UpdateProgramContext (some sampleCtx) ::
            [.SetPrData (some samplePr), .UpdateProgramContext none, .SetPrData none,
              .SetIsOpen true]) = .ok m ∧
      (∃ c1, m.ctx = some c1) ∧
      (∃ w, GetSidebarContentWidth plainEnv m = .ok w) ∧
      (∀ item, ∃ m1, SetPrData plainEnv m (some item) = .ok m1 ∧ m1.ctx = m.ctx) ∧
      View plainEnv m ≠ .error .nilContext ∧
      View plainEnv { m with IsOpen := true } ≠ .error .nilContext :=
  ⟨rfl, (C10_context_stays_present plainEnv [.SetPrData none, .Update (.KeyMsg "ctrl+d")]
    [.SetPrData (some samplePr), .UpdateProgramContext none, .SetPrData none, .SetIsOpen true]
    sampleCtx NewModel rfl).1⟩


end GhPrs
